import Mathlib

/-!
Verification development for the koko-slack-bot repository.

The Go sources embedded here:
* `internal/slack/slack.go` — the message dispatcher (`handleMessageEvent`,
  `handleBotMessage`) and the gateway-schema-change extractor
  (`handleGatewaySchemaChangeEvent`).
* `internal/github/github.go` — `PRDescription`.

Go machine integers are modelled as `Int` with explicit 64-bit range checks
(the build targets 64-bit linux, so Go `int` = `int64`); Go's `(T, error)`
multi-returns are modelled as products with `Option` errors; Go pointers that
may be nil are modelled as `Option`, with dereference of `none` a panic.
-/

/-- Lowercase one character. Go's `strings.ToLower` maps every Unicode
uppercase letter; the titles compared in this program are ASCII, and on ASCII
Go's mapping is exactly `c + 32` for `'A'..'Z'`. -/
def lowerChar (c : Char) : Char :=
  if 'A' ≤ c ∧ c ≤ 'Z' then Char.ofNat (c.toNat + 32) else c

/-- Model of Go `strings.ToLower` (ASCII fragment, see `lowerChar`). -/
def stringsToLower (s : String) : String :=
  String.mk (s.data.map lowerChar)

/-- Split a character list at every occurrence of `c`. The result is always
non-empty; an empty input yields `[[]]`, matching Go `strings.Split` with a
single-character separator. -/
def splitCharAux (c : Char) : List Char → List (List Char)
  | [] => [[]]
  | x :: xs =>
    match splitCharAux c xs with
    | [] => if x = c then [[], []] else [[x]]
    | y :: ys => if x = c then [] :: y :: ys else (x :: y) :: ys

/-- Model of Go `strings.Split(s, sep)` for the single-character separators
`"/"` and `"|"` used by this program. -/
def stringsSplit (s : String) (sep : Char) : List String :=
  (splitCharAux sep s.data).map (fun cs => String.mk cs)

/-- Decimal digit value of a character, if it is one. -/
def digitVal (c : Char) : Option Nat :=
  if '0' ≤ c ∧ c ≤ '9' then some (c.toNat - 48) else none

/-- Parse a non-empty run of decimal digits; `none` on any non-digit.
Folding from `some 0` mirrors Go's accumulation loop in `strconv`. -/
def parseDigits (cs : List Char) : Option Nat :=
  cs.foldl
    (fun acc c =>
      match acc, digitVal c with
      | some a, some d => some (a * 10 + d)
      | _, _ => none)
    (some 0)

/-- Minimum value of Go's 64-bit `int` (`math.MinInt64`). -/
def int64Min : Int := -(2 ^ 63)

/-- Maximum value of Go's 64-bit `int` (`math.MaxInt64`). -/
def int64Max : Int := 2 ^ 63 - 1

/-- Model of Go `strconv.ParseInt(s, 10, 0)` on a 64-bit platform
(`bitSize 0` means the platform `int`, 64 bits here): an optional leading
sign, then one or more decimal digits, range-checked against `int64`;
`none` models a non-nil error return. -/
def strconvParseInt (s : String) : Option Int :=
  match s.data with
  | [] => none
  | c :: rest =>
    let neg : Bool := c = '-'
    let ds : List Char := if c = '-' ∨ c = '+' then rest else c :: rest
    if ds.isEmpty then none
    else
      match parseDigits ds with
      | none => none
      | some n =>
        let v : Int := if neg then -(n : Int) else (n : Int)
        if v < int64Min ∨ int64Max < v then none else some v

/-- One `{title, value}` field of a Slack attachment
(`slack.AttachmentField`). -/
structure AttachmentField where
  title : String
  value : String
deriving DecidableEq, Repr, Inhabited

/-- One Slack attachment, restricted to the attributes the program reads
(`slack.Attachment`). -/
structure Attachment where
  authorName : String
  fields : List AttachmentField
deriving DecidableEq, Repr, Inhabited

/-- One inbound Slack message event, restricted to the attributes the program
reads (`slackevents.MessageEvent`). -/
structure MessageEvent where
  botID : String
  subType : String
  channel : String
  user : String
  text : String
  attachments : List Attachment
deriving DecidableEq, Repr, Inhabited

/-- The extracted gateway schema change record (`gatewaySchemaChange` in
`slack.go`); field order matches the Go struct. -/
structure gatewaySchemaChange where
  organization : String
  pullRequest : Int
  repository : String
deriving DecidableEq, Repr, Inhabited

/-- The Go zero value `gatewaySchemaChange{}`. -/
def gatewaySchemaChange.zero : gatewaySchemaChange :=
  { organization := "", pullRequest := 0, repository := "" }

/-- The distinct failure reasons of `handleGatewaySchemaChangeEvent`, one per
`return` site carrying a non-nil error; parameters record the data each Go
error message interpolates. -/
inductive ExtractError where
  | missingBotID
  | missingAttachments
  | tooManyAttachments (count : Nat)
  | missingAuthor
  | refTokenCount (count : Nat)
  | pullRequestParse (token : String)
  | commitFormat (value : String)
  | commitTokenCount (count : Nat)
  | missingPullRequest
  | missingOrganization
  | missingRepository
deriving DecidableEq, Repr

/-- The exact Go error strings produced by `errors.New` / `fmt.Errorf` in
`handleGatewaySchemaChangeEvent`. -/
def ExtractError.message : ExtractError → String
  | .missingBotID => "bot ID is missing from message event"
  | .missingAttachments => "attachments are missing from message event"
  | .tooManyAttachments n =>
      "too many attachments from message event: " ++ Nat.repr n ++ " > 1"
  | .missingAuthor => "gateway change event is missing author"
  | .refTokenCount n =>
      "not enough tokens in ref value to parse pull request: " ++
        Nat.repr n ++ " < 3"
  | .pullRequestParse tok => "unable to convert pull request to number: " ++ tok
  | .commitFormat v => "invalid commit value format: " ++ v
  | .commitTokenCount n =>
      "not enough tokens in commit value to parse repository: " ++
        Nat.repr n ++ " < 5"
  | .missingPullRequest => "pull request number was not present in message event"
  | .missingOrganization => "organization was not present in message event"
  | .missingRepository => "repository was not present in message event"

/-- The loop state of the field scan in `handleGatewaySchemaChangeEvent`:
the local variables `pullRequest`, `organization`, `repository`. -/
structure ScanState where
  pullRequest : Int
  organization : String
  repository : String
deriving DecidableEq, Repr

/-- Handling of the "ref" arm of the scan, on the field's value alone:
split on `/`, require at least 3 tokens, parse token index 2 as a base-10
integer. `none` when the Go code would return an error. -/
def refParse (value : String) : Option Int :=
  if (stringsSplit value '/').length < 3 then none
  else strconvParseInt ((stringsSplit value '/').getD 2 "")

/-- Handling of the "commit" arm of the scan, on the field's value alone:
split on `|`, require exactly 2 tokens, split the first on `/`, require at
least 5 tokens, take indices 3 and 4. `none` when the Go code would return
an error. -/
def commitParse (value : String) : Option (String × String) :=
  if (stringsSplit value '|').length ≠ 2 then none
  else if (stringsSplit ((stringsSplit value '|').getD 0 "") '/').length < 5 then none
  else some ((stringsSplit ((stringsSplit value '|').getD 0 "") '/').getD 3 "",
             (stringsSplit ((stringsSplit value '|').getD 0 "") '/').getD 4 "")

/-- One iteration of the `for _, field := range ... .Fields` loop in
`handleGatewaySchemaChangeEvent` (lines 270-299 of `slack.go`). -/
def processField (st : ScanState) (field : AttachmentField) :
    Except ExtractError ScanState :=
  if stringsToLower field.title = "ref" then
    if (stringsSplit field.value '/').length < 3 then
      .error (.refTokenCount (stringsSplit field.value '/').length)
    else
      match strconvParseInt ((stringsSplit field.value '/').getD 2 "") with
      | none => .error (.pullRequestParse ((stringsSplit field.value '/').getD 2 ""))
      | some n => .ok { st with pullRequest := n }
  else if stringsToLower field.title = "commit" then
    if (stringsSplit field.value '|').length ≠ 2 then
      .error (.commitFormat field.value)
    else if (stringsSplit ((stringsSplit field.value '|').getD 0 "") '/').length < 5 then
      .error (.commitTokenCount
        (stringsSplit ((stringsSplit field.value '|').getD 0 "") '/').length)
    else
      .ok { st with
        organization := (stringsSplit ((stringsSplit field.value '|').getD 0 "") '/').getD 3 "",
        repository := (stringsSplit ((stringsSplit field.value '|').getD 0 "") '/').getD 4 "" }
  else
    .ok st

/-- The whole field-scan loop: each error `return` inside the Go loop
short-circuits the remaining iterations. -/
def scanFields (st : ScanState) : List AttachmentField → Except ExtractError ScanState
  | [] => .ok st
  | f :: fs =>
    match processField st f with
    | .error e => .error e
    | .ok st' => scanFields st' fs

/-- The extractor `handleGatewaySchemaChangeEvent` (slack.go lines 247-317).
The Go `(gatewaySchemaChange, error)` multi-return is the product; every
error site returns the zero-value record, exactly as the Go code does. -/
def handleGatewaySchemaChangeEvent (messageEvent : MessageEvent) :
    gatewaySchemaChange × Option ExtractError :=
  if messageEvent.botID.length = 0 then
    (gatewaySchemaChange.zero, some .missingBotID)
  else if messageEvent.attachments.length = 0 then
    (gatewaySchemaChange.zero, some .missingAttachments)
  else if messageEvent.attachments.length > 1 then
    (gatewaySchemaChange.zero, some (.tooManyAttachments messageEvent.attachments.length))
  else if (messageEvent.attachments.headD default).authorName.length = 0 then
    (gatewaySchemaChange.zero, some .missingAuthor)
  else
    match scanFields { pullRequest := int64Min, organization := "", repository := "" }
        (messageEvent.attachments.headD default).fields with
    | .error e => (gatewaySchemaChange.zero, some e)
    | .ok st =>
      if st.pullRequest = int64Min then
        (gatewaySchemaChange.zero, some .missingPullRequest)
      else if st.organization.length = 0 then
        (gatewaySchemaChange.zero, some .missingOrganization)
      else if st.repository.length = 0 then
        (gatewaySchemaChange.zero, some .missingRepository)
      else
        ({ organization := st.organization,
           pullRequest := st.pullRequest,
           repository := st.repository }, none)

/-- The collaborator calls a dispatcher invocation can make, in order:
`GetConversationInfo`, `GetUserInfo`, the extractor
`handleGatewaySchemaChangeEvent`, and `PRDescription` on the GitHub client. -/
inductive SlackCall where
  | getConversationInfo (channel : String)
  | getUserInfo (user : String)
  | extractorCall
  | prDescriptionCall (organization : String) (repository : String) (pullRequest : Int)
deriving DecidableEq, Repr

/-- How one dispatcher invocation ends (each arm corresponds to one `return`
or fall-through in `handleMessageEvent`). -/
inductive Outcome where
  | droppedUnsupportedSubtype
  | droppedOwnBot
  | channelLookupFailed
  | botMessageFailed
  | botMessageHandled
  | userLookupFailed
  | humanMessageLogged
deriving DecidableEq, Repr

/-- The external collaborators the dispatcher calls: channel-name resolution
(`GetConversationInfo`), user-name resolution (`GetUserInfo`) and the GitHub
pull-request description lookup (`PRDescription`); `none` models a non-nil
error from the collaborator. -/
structure Env where
  conversationName : String → Option String
  userName : String → Option String
  prDescription : String → String → Int → Option String

/-- The handler `handleBotMessage` (slack.go lines 225-243), returning the
collaborator calls it makes and whether it returned a nil error. -/
def handleBotMessage (env : Env) (messageEvent : MessageEvent)
    (channelName : String) : List SlackCall × Bool :=
  if channelName = "gateway-schema-change-feed" then
    match handleGatewaySchemaChangeEvent messageEvent with
    | (_, some _) => ([SlackCall.extractorCall], false)
    | (gsc, none) =>
      match env.prDescription gsc.organization gsc.repository gsc.pullRequest with
      | none =>
        ([SlackCall.extractorCall,
          SlackCall.prDescriptionCall gsc.organization gsc.repository gsc.pullRequest],
         false)
      | some _ =>
        ([SlackCall.extractorCall,
          SlackCall.prDescriptionCall gsc.organization gsc.repository gsc.pullRequest],
         true)
  else ([], true)

/-- The dispatcher `handleMessageEvent` (slack.go lines 169-222), from the
point where the inner event is known to be a `MessageEvent` (the envelope
type checks and the `Ack` precede and do not depend on the message).
`botIdentity` is `s.botID`, captured at startup. The result records, in
order, every collaborator call made and how the invocation ended. -/
def handleMessageEvent (botIdentity : String) (env : Env)
    (messageEvent : MessageEvent) : List SlackCall × Outcome :=
  if messageEvent.subType.length > 0 ∧ messageEvent.subType ≠ "bot_message" then
    ([], Outcome.droppedUnsupportedSubtype)
  else if messageEvent.botID = botIdentity then
    ([], Outcome.droppedOwnBot)
  else
    match env.conversationName messageEvent.channel with
    | none => ([SlackCall.getConversationInfo messageEvent.channel],
               Outcome.channelLookupFailed)
    | some channelName =>
      if messageEvent.subType = "bot_message" then
        match handleBotMessage env messageEvent channelName with
        | (calls, ok) =>
          (SlackCall.getConversationInfo messageEvent.channel :: calls,
           if ok then Outcome.botMessageHandled else Outcome.botMessageFailed)
      else
        match env.userName messageEvent.user with
        | none => ([SlackCall.getConversationInfo messageEvent.channel,
                    SlackCall.getUserInfo messageEvent.user],
                   Outcome.userLookupFailed)
        | some _ => ([SlackCall.getConversationInfo messageEvent.channel,
                      SlackCall.getUserInfo messageEvent.user],
                     Outcome.humanMessageLogged)

/-- A fetched GitHub pull request, restricted to what `PRDescription` reads:
the `Body *string` pointer, modelled as `Option String` (`none` = nil). -/
structure PullRequest where
  body : Option String
deriving DecidableEq, Repr

/-- A Go call result: a normal return of a value, a normal return of a
non-nil error, or a runtime panic. -/
inductive GoResult (α : Type) where
  | ok (val : α)
  | err
  | panics
deriving DecidableEq, Repr

/-- The method `PRDescription` (github.go lines 75-85), parameterized by the
outcome of the `PullRequests.Get` call it makes: on a non-nil error it
returns the wrapped error; otherwise it returns `*pr.Body` — a dereference
with no nil check, which panics when the body pointer is nil. -/
def PRDescription (getResult : Except Unit PullRequest) : GoResult String :=
  match getResult with
  | .error _ => .err
  | .ok pr =>
    match pr.body with
    | none => .panics
    | some b => .ok b

/-- A field the scan's "ref" arm matches (title lowercases to "ref"). -/
def isRef (f : AttachmentField) : Bool :=
  stringsToLower f.title == "ref"

/-- A field the scan's "commit" arm matches (title lowercases to "commit"). -/
def isCommit (f : AttachmentField) : Bool :=
  stringsToLower f.title == "commit"

theorem isRef_iff (f : AttachmentField) :
    isRef f = true ↔ stringsToLower f.title = "ref" := by
  simp [isRef]

theorem isCommit_iff (f : AttachmentField) :
    isCommit f = true ↔ stringsToLower f.title = "commit" := by
  simp [isCommit]

theorem isCommit_eq_false_of_isRef (f : AttachmentField) (h : isRef f = true) :
    isCommit f = false := by
  rw [isRef_iff] at h
  rcases hc : isCommit f with _ | _
  · rfl
  · rw [isCommit_iff] at hc
    exact absurd (h ▸ hc) (by decide)

theorem processField_other (st : ScanState) (f : AttachmentField)
    (h1 : isRef f = false) (h2 : isCommit f = false) :
    processField st f = .ok st := by
  have h1' : ¬stringsToLower f.title = "ref" := by
    intro h; rw [← isRef_iff] at h; simp [h] at h1
  have h2' : ¬stringsToLower f.title = "commit" := by
    intro h; rw [← isCommit_iff] at h; simp [h] at h2
  simp [processField, h1', h2']

theorem processField_ref_parse (st : ScanState) (f : AttachmentField) (n : Int)
    (h : isRef f = true) (hp : refParse f.value = some n) :
    processField st f = .ok { st with pullRequest := n } := by
  rw [isRef_iff] at h
  unfold refParse at hp
  unfold processField
  rw [if_pos h]
  split at hp
  · exact absurd hp (by simp)
  · next hlen =>
    rw [if_neg hlen, hp]

theorem processField_commit_parse (st : ScanState) (f : AttachmentField)
    (o r : String) (h : isCommit f = true)
    (hp : commitParse f.value = some (o, r)) :
    processField st f = .ok { st with organization := o, repository := r } := by
  rw [isCommit_iff] at h
  have hnr : ¬stringsToLower f.title = "ref" := by
    rw [h]; decide
  unfold commitParse at hp
  unfold processField
  rw [if_neg hnr, if_pos h]
  split at hp
  · exact absurd hp (by simp)
  · next hlen =>
    rw [if_neg hlen]
    split at hp
    · exact absurd hp (by simp)
    · next hlen2 =>
      rw [if_neg hlen2]
      simp only [Option.some.injEq, Prod.mk.injEq] at hp
      rw [hp.1, hp.2]

theorem processField_ref_ok (st st' : ScanState) (f : AttachmentField)
    (h : isRef f = true) (hok : processField st f = .ok st') :
    refParse f.value = some st'.pullRequest ∧
      st'.organization = st.organization ∧ st'.repository = st.repository := by
  rw [isRef_iff] at h
  unfold processField at hok
  rw [if_pos h] at hok
  unfold refParse
  split at hok
  · exact absurd hok (by simp)
  · next hlen =>
    rw [if_neg hlen]
    split at hok
    · exact absurd hok (by simp)
    · next n hn =>
      simp only [Except.ok.injEq] at hok
      rw [hn, ← hok]
      exact ⟨rfl, rfl, rfl⟩

theorem processField_commit_ok (st st' : ScanState) (f : AttachmentField)
    (h : isCommit f = true) (hok : processField st f = .ok st') :
    commitParse f.value = some (st'.organization, st'.repository) ∧
      st'.pullRequest = st.pullRequest := by
  rw [isCommit_iff] at h
  have hnr : ¬stringsToLower f.title = "ref" := by
    rw [h]; decide
  unfold processField at hok
  rw [if_neg hnr, if_pos h] at hok
  unfold commitParse
  split at hok
  · exact absurd hok (by simp)
  · next hlen =>
    rw [if_neg hlen]
    split at hok
    · exact absurd hok (by simp)
    · next hlen2 =>
      rw [if_neg hlen2]
      simp only [Except.ok.injEq] at hok
      rw [← hok]
      exact ⟨rfl, rfl⟩

theorem processField_not_ref_pr (st st' : ScanState) (f : AttachmentField)
    (h : isRef f = false) (hok : processField st f = .ok st') :
    st'.pullRequest = st.pullRequest := by
  rcases hc : isCommit f with _ | _
  · rw [processField_other st f h hc] at hok
    simp only [Except.ok.injEq] at hok
    rw [← hok]
  · exact (processField_commit_ok st st' f hc hok).2

theorem processField_not_commit_orgrepo (st st' : ScanState) (f : AttachmentField)
    (h : isCommit f = false) (hok : processField st f = .ok st') :
    st'.organization = st.organization ∧ st'.repository = st.repository := by
  rcases hr : isRef f with _ | _
  · rw [processField_other st f hr h] at hok
    simp only [Except.ok.injEq] at hok
    rw [← hok]
    exact ⟨rfl, rfl⟩
  · exact (processField_ref_ok st st' f hr hok).2

theorem scanFields_id (fs : List AttachmentField) : ∀ st : ScanState,
    fs.filter isRef = [] → fs.filter isCommit = [] → scanFields st fs = .ok st := by
  induction fs with
  | nil => intro st _ _; rfl
  | cons f fs ih =>
    intro st h1 h2
    rcases hr : isRef f with _ | _
    · rcases hc : isCommit f with _ | _
      · have h1' : fs.filter isRef = [] := by simpa [List.filter_cons, hr] using h1
        have h2' : fs.filter isCommit = [] := by simpa [List.filter_cons, hc] using h2
        unfold scanFields
        rw [processField_other st f hr hc]
        exact ih st h1' h2'
      · simp [List.filter_cons, hc] at h2
    · simp [List.filter_cons, hr] at h1

theorem scanFields_pr_of_no_ref (fs : List AttachmentField) : ∀ st st' : ScanState,
    fs.filter isRef = [] → scanFields st fs = .ok st' →
    st'.pullRequest = st.pullRequest := by
  induction fs with
  | nil =>
    intro st st' _ h
    unfold scanFields at h
    simp only [Except.ok.injEq] at h
    rw [← h]
  | cons f fs ih =>
    intro st st' h1 hok
    have hr : isRef f = false := by
      rcases hr : isRef f with _ | _
      · rfl
      · simp [List.filter_cons, hr] at h1
    have h1' : fs.filter isRef = [] := by simpa [List.filter_cons, hr] using h1
    unfold scanFields at hok
    rcases hpf : processField st f with e | st1
    · rw [hpf] at hok; exact absurd hok (by simp)
    · simp only [hpf] at hok
      rw [ih st1 st' h1' hok, processField_not_ref_pr st st1 f hr hpf]

theorem scanFields_orgrepo_of_no_commit (fs : List AttachmentField) :
    ∀ st st' : ScanState, fs.filter isCommit = [] → scanFields st fs = .ok st' →
    st'.organization = st.organization ∧ st'.repository = st.repository := by
  induction fs with
  | nil =>
    intro st st' _ h
    unfold scanFields at h
    simp only [Except.ok.injEq] at h
    rw [← h]
    exact ⟨rfl, rfl⟩
  | cons f fs ih =>
    intro st st' h1 hok
    have hc : isCommit f = false := by
      rcases hc : isCommit f with _ | _
      · rfl
      · simp [List.filter_cons, hc] at h1
    have h1' : fs.filter isCommit = [] := by simpa [List.filter_cons, hc] using h1
    unfold scanFields at hok
    rcases hpf : processField st f with e | st1
    · rw [hpf] at hok; exact absurd hok (by simp)
    · simp only [hpf] at hok
      have hstep := processField_not_commit_orgrepo st st1 f hc hpf
      have hrest := ih st1 st' h1' hok
      exact ⟨hrest.1.trans hstep.1, hrest.2.trans hstep.2⟩

theorem scanFields_commit_only (fs : List AttachmentField) :
    ∀ (st : ScanState) (fc : AttachmentField) (o r : String),
    fs.filter isRef = [] → fs.filter isCommit = [fc] →
    commitParse fc.value = some (o, r) →
    scanFields st fs = .ok ⟨st.pullRequest, o, r⟩ := by
  induction fs with
  | nil => intro st fc o r _ h2 _; simp at h2
  | cons f fs ih =>
    intro st fc o r h1 h2 h3
    have hr : isRef f = false := by
      rcases hr : isRef f with _ | _
      · rfl
      · simp [List.filter_cons, hr] at h1
    have h1' : fs.filter isRef = [] := by simpa [List.filter_cons, hr] using h1
    rcases hc : isCommit f with _ | _
    · have h2' : fs.filter isCommit = [fc] := by simpa [List.filter_cons, hc] using h2
      unfold scanFields
      rw [processField_other st f hr hc]
      exact ih st fc o r h1' h2' h3
    · have h2' : f = fc ∧ fs.filter isCommit = [] := by
        simpa [List.filter_cons, hc] using h2
      unfold scanFields
      rw [processField_commit_parse st f o r hc (h2'.1 ▸ h3)]
      exact scanFields_id fs _ h1' h2'.2

theorem scanFields_ref_only (fs : List AttachmentField) :
    ∀ (st : ScanState) (fr : AttachmentField) (n : Int),
    fs.filter isRef = [fr] → fs.filter isCommit = [] →
    refParse fr.value = some n →
    scanFields st fs = .ok ⟨n, st.organization, st.repository⟩ := by
  induction fs with
  | nil => intro st fr n h1 _ _; simp at h1
  | cons f fs ih =>
    intro st fr n h1 h2 h3
    have hc : isCommit f = false := by
      rcases hc : isCommit f with _ | _
      · rfl
      · simp [List.filter_cons, hc] at h2
    have h2' : fs.filter isCommit = [] := by simpa [List.filter_cons, hc] using h2
    rcases hr : isRef f with _ | _
    · have h1' : fs.filter isRef = [fr] := by simpa [List.filter_cons, hr] using h1
      unfold scanFields
      rw [processField_other st f hr hc]
      exact ih st fr n h1' h2' h3
    · have h1' : f = fr ∧ fs.filter isRef = [] := by
        simpa [List.filter_cons, hr] using h1
      unfold scanFields
      rw [processField_ref_parse st f n hr (h1'.1 ▸ h3)]
      exact scanFields_id fs _ h1'.2 h2'

theorem scanFields_unique (fs : List AttachmentField) :
    ∀ (st : ScanState) (fr fc : AttachmentField) (n : Int) (o r : String),
    fs.filter isRef = [fr] → fs.filter isCommit = [fc] →
    refParse fr.value = some n → commitParse fc.value = some (o, r) →
    scanFields st fs = .ok ⟨n, o, r⟩ := by
  induction fs with
  | nil => intro st fr fc n o r h1 _ _ _; simp at h1
  | cons f fs ih =>
    intro st fr fc n o r h1 h2 h3 h4
    rcases hr : isRef f with _ | _
    · rcases hc : isCommit f with _ | _
      · have h1' : fs.filter isRef = [fr] := by simpa [List.filter_cons, hr] using h1
        have h2' : fs.filter isCommit = [fc] := by simpa [List.filter_cons, hc] using h2
        unfold scanFields
        rw [processField_other st f hr hc]
        exact ih st fr fc n o r h1' h2' h3 h4
      · have h1' : fs.filter isRef = [fr] := by simpa [List.filter_cons, hr] using h1
        have h2' : f = fc ∧ fs.filter isCommit = [] := by
          simpa [List.filter_cons, hc] using h2
        unfold scanFields
        rw [processField_commit_parse st f o r hc (h2'.1 ▸ h4)]
        exact scanFields_ref_only fs _ fr n h1' h2'.2 h3
    · have hc : isCommit f = false := isCommit_eq_false_of_isRef f hr
      have h1' : f = fr ∧ fs.filter isRef = [] := by
        simpa [List.filter_cons, hr] using h1
      have h2' : fs.filter isCommit = [fc] := by simpa [List.filter_cons, hc] using h2
      unfold scanFields
      rw [processField_ref_parse st f n hr (h1'.1 ▸ h3)]
      exact scanFields_commit_only fs _ fc o r h1'.2 h2' h4

theorem scanFields_last_ref (fs : List AttachmentField) :
    ∀ (st st' : ScanState) (fr : AttachmentField),
    scanFields st fs = .ok st' → (fs.filter isRef).getLast? = some fr →
    refParse fr.value = some st'.pullRequest := by
  induction fs with
  | nil => intro st st' fr _ hl; simp at hl
  | cons f fs ih =>
    intro st st' fr hok hl
    unfold scanFields at hok
    rcases hpf : processField st f with e | st1
    · rw [hpf] at hok; exact absurd hok (by simp)
    · simp only [hpf] at hok
      rcases hr : isRef f with _ | _
      · have hl' : (fs.filter isRef).getLast? = some fr := by
          simpa [List.filter_cons, hr] using hl
        exact ih st1 st' fr hok hl'
      · rcases hfs : fs.filter isRef with _ | ⟨g, gs⟩
        · have hf : fr = f := by
            simp [List.filter_cons, hr, hfs] at hl
            exact hl.symm
          have hstep := processField_ref_ok st st1 f hr hpf
          have hpres := scanFields_pr_of_no_ref fs st1 st' hfs hok
          rw [hf, hpres]
          exact hstep.1
        · have hl' : (g :: gs).getLast? = some fr := by
            simpa [List.filter_cons, hr, hfs, List.getLast?_cons_cons] using hl
          exact ih st1 st' fr hok (by rw [hfs]; exact hl')

theorem scanFields_last_commit (fs : List AttachmentField) :
    ∀ (st st' : ScanState) (fc : AttachmentField),
    scanFields st fs = .ok st' → (fs.filter isCommit).getLast? = some fc →
    commitParse fc.value = some (st'.organization, st'.repository) := by
  induction fs with
  | nil => intro st st' fc _ hl; simp at hl
  | cons f fs ih =>
    intro st st' fc hok hl
    unfold scanFields at hok
    rcases hpf : processField st f with e | st1
    · rw [hpf] at hok; exact absurd hok (by simp)
    · simp only [hpf] at hok
      rcases hc : isCommit f with _ | _
      · have hl' : (fs.filter isCommit).getLast? = some fc := by
          simpa [List.filter_cons, hc] using hl
        exact ih st1 st' fc hok hl'
      · rcases hfs : fs.filter isCommit with _ | ⟨g, gs⟩
        · have hf : fc = f := by
            simp [List.filter_cons, hc, hfs] at hl
            exact hl.symm
          have hstep := processField_commit_ok st st1 f hc hpf
          have hpres := scanFields_orgrepo_of_no_commit fs st1 st' hfs hok
          rw [hf, hpres.1, hpres.2]
          exact hstep.1
        · have hl' : (g :: gs).getLast? = some fc := by
            simpa [List.filter_cons, hc, hfs, List.getLast?_cons_cons] using hl
          exact ih st1 st' fc hok (by rw [hfs]; exact hl')

theorem handleGSC_ok_elim (m : MessageEvent) (gsc : gatewaySchemaChange)
    (h : handleGatewaySchemaChangeEvent m = (gsc, none)) :
    ∃ st : ScanState,
      scanFields ⟨int64Min, "", ""⟩ (m.attachments.headD default).fields = .ok st ∧
      gsc = ⟨st.organization, st.pullRequest, st.repository⟩ ∧
      st.pullRequest ≠ int64Min ∧ st.organization.length ≠ 0 ∧
      st.repository.length ≠ 0 := by
  unfold handleGatewaySchemaChangeEvent at h
  by_cases h1 : m.botID.length = 0
  · rw [if_pos h1] at h; simp at h
  · rw [if_neg h1] at h
    by_cases h2 : m.attachments.length = 0
    · rw [if_pos h2] at h; simp at h
    · rw [if_neg h2] at h
      by_cases h3 : m.attachments.length > 1
      · rw [if_pos h3] at h; simp at h
      · rw [if_neg h3] at h
        by_cases h4 : (m.attachments.headD default).authorName.length = 0
        · rw [if_pos h4] at h; simp at h
        · rw [if_neg h4] at h
          rcases hscan : scanFields ⟨int64Min, "", ""⟩
              (m.attachments.headD default).fields with e | st
          · simp only [hscan] at h; simp at h
          · simp only [hscan] at h
            by_cases p1 : st.pullRequest = int64Min
            · rw [if_pos p1] at h; simp at h
            · rw [if_neg p1] at h
              by_cases p2 : st.organization.length = 0
              · rw [if_pos p2] at h; simp at h
              · rw [if_neg p2] at h
                by_cases p3 : st.repository.length = 0
                · rw [if_pos p3] at h; simp at h
                · rw [if_neg p3] at h
                  simp only [Prod.mk.injEq] at h
                  exact ⟨st, rfl, h.1.symm, p1, p2, p3⟩

theorem handleGSC_shape (m : MessageEvent) :
    (∃ e, handleGatewaySchemaChangeEvent m = (gatewaySchemaChange.zero, some e)) ∨
    (∃ gsc, handleGatewaySchemaChangeEvent m = (gsc, none) ∧
      gsc.organization.length ≠ 0 ∧ gsc.repository.length ≠ 0 ∧
      gsc.pullRequest ≠ int64Min) := by
  unfold handleGatewaySchemaChangeEvent
  by_cases h1 : m.botID.length = 0
  · rw [if_pos h1]; exact Or.inl ⟨_, rfl⟩
  · rw [if_neg h1]
    by_cases h2 : m.attachments.length = 0
    · rw [if_pos h2]; exact Or.inl ⟨_, rfl⟩
    · rw [if_neg h2]
      by_cases h3 : m.attachments.length > 1
      · rw [if_pos h3]; exact Or.inl ⟨_, rfl⟩
      · rw [if_neg h3]
        by_cases h4 : (m.attachments.headD default).authorName.length = 0
        · rw [if_pos h4]; exact Or.inl ⟨_, rfl⟩
        · rw [if_neg h4]
          rcases hscan : scanFields ⟨int64Min, "", ""⟩
              (m.attachments.headD default).fields with e | st
          · simp only [hscan]; exact Or.inl ⟨e, rfl⟩
          · simp only [hscan]
            by_cases p1 : st.pullRequest = int64Min
            · rw [if_pos p1]; exact Or.inl ⟨_, rfl⟩
            · rw [if_neg p1]
              by_cases p2 : st.organization.length = 0
              · rw [if_pos p2]; exact Or.inl ⟨_, rfl⟩
              · rw [if_neg p2]
                by_cases p3 : st.repository.length = 0
                · rw [if_pos p3]; exact Or.inl ⟨_, rfl⟩
                · rw [if_neg p3]
                  exact Or.inr ⟨_, rfl, p2, p3, p1⟩

/-- The well-formed gateway-schema-change attachment from the spec's
end-to-end scenario. -/
def attGood : Attachment :=
  ⟨"team-koko-bot",
   [⟨"Ref", "refs/pull/5291/merge"⟩,
    ⟨"Commit", "https://github.com/kong/team-koko-bot/commit/180edc|sha"⟩]⟩

/-- The spec's end-to-end message: bot-authored, one attachment. -/
def msgGood : MessageEvent := ⟨"B0", "bot_message", "C1", "U1", "", [attGood]⟩

/-- Like `msgGood` but with a third field, again titled Ref, appended. -/
def msgExtraRef : MessageEvent :=
  ⟨"B0", "bot_message", "C1", "U1", "",
   [⟨"team-koko-bot",
     [⟨"Ref", "refs/pull/5291/merge"⟩,
      ⟨"Commit", "https://github.com/kong/team-koko-bot/commit/180edc|sha"⟩,
      ⟨"Ref", "a/b/7"⟩]⟩]⟩

/-- A message whose single ref field parses to exactly `math.MinInt64`,
the extractor's "unset" sentinel. -/
def msgMinInt : MessageEvent :=
  ⟨"B0", "bot_message", "C1", "U1", "",
   [⟨"author", [⟨"Ref", "a/b/-9223372036854775808"⟩]⟩]⟩

/-- C1, as frozen, is refuted by `msgExtraRef`: it satisfies every premise of
the claim — non-empty botID, exactly one attachment with non-empty author,
and the field sequence CONTAINS a Ref field with value
"refs/pull/5291/merge" and a Commit field with the given value — yet
extraction succeeds with pullRequest 7, not 5291, because a later Ref field
overwrites the earlier one (last-wins). -/
theorem c1_counterexample :
    msgExtraRef.botID.length ≠ 0 ∧
    msgExtraRef.attachments.length = 1 ∧
    (msgExtraRef.attachments.headD default).authorName.length ≠ 0 ∧
    (⟨"Ref", "refs/pull/5291/merge"⟩ : AttachmentField) ∈
      (msgExtraRef.attachments.headD default).fields ∧
    (⟨"Commit", "https://github.com/kong/team-koko-bot/commit/180edc|sha"⟩ :
      AttachmentField) ∈ (msgExtraRef.attachments.headD default).fields ∧
    handleGatewaySchemaChangeEvent msgExtraRef =
      (⟨"kong", 7, "team-koko-bot"⟩, none) ∧
    (⟨"kong", 7, "team-koko-bot"⟩ : gatewaySchemaChange).pullRequest ≠ 5291 := by
  decide

/-- C1 (amended): for every message with non-empty botID, exactly one
attachment with non-empty authorName, whose field sequence's ref-titled
fields are exactly one field valued "refs/pull/5291/merge" and whose
commit-titled fields are exactly one field valued
"https://github.com/kong/team-koko-bot/commit/180edc|sha" (fields with any
other titles arbitrary), the extractor succeeds and returns exactly
organization "kong", repository "team-koko-bot", pullRequest 5291. -/
theorem c1_extraction_end_to_end (m : MessageEvent) (a : Attachment)
    (fr fc : AttachmentField)
    (h1 : m.botID.length ≠ 0) (h2 : m.attachments = [a])
    (h3 : a.authorName.length ≠ 0)
    (h4 : a.fields.filter isRef = [fr])
    (h5 : fr.value = "refs/pull/5291/merge")
    (h6 : a.fields.filter isCommit = [fc])
    (h7 : fc.value = "https://github.com/kong/team-koko-bot/commit/180edc|sha") :
    handleGatewaySchemaChangeEvent m =
      (⟨"kong", 5291, "team-koko-bot"⟩, none) := by
  have hscan : scanFields ⟨int64Min, "", ""⟩ a.fields =
      .ok ⟨5291, "kong", "team-koko-bot"⟩ :=
    scanFields_unique a.fields _ fr fc 5291 "kong" "team-koko-bot" h4 h6
      (by rw [h5]; decide) (by rw [h7]; decide)
  have h20 : ¬ m.attachments.length = 0 := by rw [h2]; simp
  have h21 : ¬ m.attachments.length > 1 := by rw [h2]; simp
  have hhead : m.attachments.headD default = a := by rw [h2]; rfl
  have h40 : ¬ (m.attachments.headD default).authorName.length = 0 := by
    rw [hhead]; exact h3
  unfold handleGatewaySchemaChangeEvent
  rw [if_neg h1, if_neg h20, if_neg h21, if_neg h40, hhead, hscan]
  decide

/-- Witness for C1 (amended) at the spec's end-to-end message. -/
theorem c1_witness :
    handleGatewaySchemaChangeEvent msgGood =
      (⟨"kong", 5291, "team-koko-bot"⟩, none) :=
  c1_extraction_end_to_end msgGood attGood
    ⟨"Ref", "refs/pull/5291/merge"⟩
    ⟨"Commit", "https://github.com/kong/team-koko-bot/commit/180edc|sha"⟩
    (by decide) rfl (by decide) (by decide) rfl (by decide) rfl

/-- C2, as frozen, is refuted by `msgMinInt`: its parenthetical assumes the
sentinel `math.MinInt64` is out of range for the parser, but
`strconv.ParseInt(s, 10, 0)` on a 64-bit platform accepts
"-9223372036854775808"; here a ref field sets the pull-request value (its
split and parse succeed), yet the extractor still fails with the
"pull request number was not present" error. -/
theorem c2_counterexample :
    msgMinInt.botID.length ≠ 0 ∧
    msgMinInt.attachments.length = 1 ∧
    (msgMinInt.attachments.headD default).authorName.length ≠ 0 ∧
    (∃ f ∈ (msgMinInt.attachments.headD default).fields,
      isRef f = true ∧ refParse f.value ≠ none) ∧
    handleGatewaySchemaChangeEvent msgMinInt =
      (gatewaySchemaChange.zero, some ExtractError.missingPullRequest) := by
  decide

/-- C2 (amended): for every message passing the botID/attachment/author
checks whose field scan completes with final state `st`, the extractor fails
with "pull request number was not present" iff `st.pullRequest` still equals
the sentinel `math.MinInt64` — which happens iff no ref field set it OR the
last ref field parsed to exactly -9223372036854775808 (the sentinel is
within ParseInt's range, hence attainable); otherwise it fails with
"organization was not present" exactly when the organization is empty, then
"repository was not present" exactly when the repository is empty, in that
order. -/
theorem c2_post_scan_checks (m : MessageEvent) (a : Attachment) (st : ScanState)
    (h1 : m.botID.length ≠ 0) (h2 : m.attachments = [a])
    (h3 : a.authorName.length ≠ 0)
    (hscan : scanFields ⟨int64Min, "", ""⟩ a.fields = .ok st) :
    ((handleGatewaySchemaChangeEvent m).2 = some ExtractError.missingPullRequest ↔
      st.pullRequest = int64Min) ∧
    ((handleGatewaySchemaChangeEvent m).2 = some ExtractError.missingOrganization ↔
      st.pullRequest ≠ int64Min ∧ st.organization.length = 0) ∧
    ((handleGatewaySchemaChangeEvent m).2 = some ExtractError.missingRepository ↔
      st.pullRequest ≠ int64Min ∧ st.organization.length ≠ 0 ∧
      st.repository.length = 0) := by
  have h20 : ¬ m.attachments.length = 0 := by rw [h2]; simp
  have h21 : ¬ m.attachments.length > 1 := by rw [h2]; simp
  have hhead : m.attachments.headD default = a := by rw [h2]; rfl
  have h40 : ¬ (m.attachments.headD default).authorName.length = 0 := by
    rw [hhead]; exact h3
  have hres : handleGatewaySchemaChangeEvent m =
      (if st.pullRequest = int64Min then
        (gatewaySchemaChange.zero, some ExtractError.missingPullRequest)
      else if st.organization.length = 0 then
        (gatewaySchemaChange.zero, some ExtractError.missingOrganization)
      else if st.repository.length = 0 then
        (gatewaySchemaChange.zero, some ExtractError.missingRepository)
      else ({ organization := st.organization, pullRequest := st.pullRequest,
              repository := st.repository }, none)) := by
    unfold handleGatewaySchemaChangeEvent
    rw [if_neg h1, if_neg h20, if_neg h21, if_neg h40, hhead, hscan]
  rw [hres]
  by_cases p1 : st.pullRequest = int64Min
  · rw [if_pos p1]
    simp [p1]
  · rw [if_neg p1]
    by_cases p2 : st.organization.length = 0
    · rw [if_pos p2]
      simp [p1, p2]
    · rw [if_neg p2]
      by_cases p3 : st.repository.length = 0
      · rw [if_pos p3]
        simp [p1, p2, p3]
      · rw [if_neg p3]
        simp [p1, p2, p3]

/-- Witness for C2 (amended) at the spec's end-to-end message, whose scan
ends in state (5291, "kong", "team-koko-bot"). -/
theorem c2_witness :
    ((handleGatewaySchemaChangeEvent msgGood).2 =
        some ExtractError.missingPullRequest ↔
      (⟨5291, "kong", "team-koko-bot"⟩ : ScanState).pullRequest = int64Min) ∧
    ((handleGatewaySchemaChangeEvent msgGood).2 =
        some ExtractError.missingOrganization ↔
      (⟨5291, "kong", "team-koko-bot"⟩ : ScanState).pullRequest ≠ int64Min ∧
      (⟨5291, "kong", "team-koko-bot"⟩ : ScanState).organization.length = 0) ∧
    ((handleGatewaySchemaChangeEvent msgGood).2 =
        some ExtractError.missingRepository ↔
      (⟨5291, "kong", "team-koko-bot"⟩ : ScanState).pullRequest ≠ int64Min ∧
      (⟨5291, "kong", "team-koko-bot"⟩ : ScanState).organization.length ≠ 0 ∧
      (⟨5291, "kong", "team-koko-bot"⟩ : ScanState).repository.length = 0) :=
  c2_post_scan_checks msgGood attGood ⟨5291, "kong", "team-koko-bot"⟩
    (by decide) rfl (by decide) (by rfl)

/-- Messages exercising each prefix-validation failure of the extractor. -/
def msgEmptyBot : MessageEvent := ⟨"", "bot_message", "C1", "U1", "", []⟩

def msgNoAttachments : MessageEvent := ⟨"B0", "bot_message", "C1", "U1", "", []⟩

def msgTwoAttachments : MessageEvent :=
  ⟨"B0", "bot_message", "C1", "U1", "", [⟨"a", []⟩, ⟨"b", []⟩]⟩

def msgNoAuthor : MessageEvent :=
  ⟨"B0", "bot_message", "C1", "U1", "", [⟨"", [⟨"Ref", "refs/pull/5291/merge"⟩]⟩]⟩

/-- C3: the extractor's validation steps run in a fixed order, each
short-circuiting with its own distinct error: an empty botID yields the
missing-bot-ID error regardless of the attachments; then an attachment count
of 0 yields the missing-attachments error and a count greater than 1 yields
the too-many-attachments error whose message interpolates the actual count;
then an empty authorName on the single attachment yields the missing-author
error. -/
theorem c3_validation_order (m : MessageEvent) :
    (m.botID.length = 0 →
      handleGatewaySchemaChangeEvent m =
        (gatewaySchemaChange.zero, some ExtractError.missingBotID)) ∧
    (m.botID.length ≠ 0 → m.attachments.length = 0 →
      handleGatewaySchemaChangeEvent m =
        (gatewaySchemaChange.zero, some ExtractError.missingAttachments)) ∧
    (m.botID.length ≠ 0 → m.attachments.length > 1 →
      handleGatewaySchemaChangeEvent m =
        (gatewaySchemaChange.zero,
         some (ExtractError.tooManyAttachments m.attachments.length)) ∧
      (ExtractError.tooManyAttachments m.attachments.length).message =
        "too many attachments from message event: " ++
          Nat.repr m.attachments.length ++ " > 1") ∧
    (m.botID.length ≠ 0 → m.attachments.length = 1 →
      (m.attachments.headD default).authorName.length = 0 →
      handleGatewaySchemaChangeEvent m =
        (gatewaySchemaChange.zero, some ExtractError.missingAuthor)) := by
  refine ⟨?_, ?_, ?_, ?_⟩
  · intro h1
    unfold handleGatewaySchemaChangeEvent
    rw [if_pos h1]
  · intro h1 h2
    unfold handleGatewaySchemaChangeEvent
    rw [if_neg h1, if_pos h2]
  · intro h1 h3
    have h2 : ¬ m.attachments.length = 0 := by omega
    refine ⟨?_, rfl⟩
    unfold handleGatewaySchemaChangeEvent
    rw [if_neg h1, if_neg h2, if_pos h3]
  · intro h1 hlen h4
    have h2 : ¬ m.attachments.length = 0 := by omega
    have h3 : ¬ m.attachments.length > 1 := by omega
    unfold handleGatewaySchemaChangeEvent
    rw [if_neg h1, if_neg h2, if_neg h3, if_pos h4]

/-- Witness for C3: each validation failure observed on a concrete message. -/
theorem c3_witness :
    handleGatewaySchemaChangeEvent msgEmptyBot =
      (gatewaySchemaChange.zero, some ExtractError.missingBotID) ∧
    handleGatewaySchemaChangeEvent msgNoAttachments =
      (gatewaySchemaChange.zero, some ExtractError.missingAttachments) ∧
    handleGatewaySchemaChangeEvent msgTwoAttachments =
      (gatewaySchemaChange.zero, some (ExtractError.tooManyAttachments 2)) ∧
    handleGatewaySchemaChangeEvent msgNoAuthor =
      (gatewaySchemaChange.zero, some ExtractError.missingAuthor) :=
  ⟨(c3_validation_order msgEmptyBot).1 rfl,
   (c3_validation_order msgNoAttachments).2.1 (by decide) rfl,
   ((c3_validation_order msgTwoAttachments).2.2.1 (by decide) (by decide)).1,
   (c3_validation_order msgNoAuthor).2.2.2 (by decide) rfl (by decide)⟩

/-- C4: whenever the extractor succeeds, the pull-request value comes from
the last ref-titled field in sequence order and the organization/repository
from the last commit-titled field (last-wins: the scan visits every field,
later matches overwriting earlier ones). -/
theorem c4_last_wins (m : MessageEvent) (gsc : gatewaySchemaChange)
    (h : handleGatewaySchemaChangeEvent m = (gsc, none)) :
    (∀ fr : AttachmentField,
      ((m.attachments.headD default).fields.filter isRef).getLast? = some fr →
      refParse fr.value = some gsc.pullRequest) ∧
    (∀ fc : AttachmentField,
      ((m.attachments.headD default).fields.filter isCommit).getLast? = some fc →
      commitParse fc.value = some (gsc.organization, gsc.repository)) := by
  rcases handleGSC_ok_elim m gsc h with ⟨st, hscan, hgsc, _, _, _⟩
  subst hgsc
  exact ⟨fun fr hl => scanFields_last_ref _ _ _ fr hscan hl,
         fun fc hl => scanFields_last_commit _ _ _ fc hscan hl⟩

/-- A message with two ref-titled and two commit-titled fields, all
well-formed; extraction takes the values of the later ones. -/
def msgDupFields : MessageEvent :=
  ⟨"B0", "bot_message", "C1", "U1", "",
   [⟨"team-koko-bot",
     [⟨"Ref", "refs/pull/5291/merge"⟩,
      ⟨"Commit", "https://github.com/kong/team-koko-bot/commit/180edc|sha"⟩,
      ⟨"Ref", "a/b/7"⟩,
      ⟨"commit", "x/y/z/org2/repo2/q|s"⟩]⟩]⟩

/-- Witness for C4 at a message with repeated ref and commit fields. -/
theorem c4_witness :
    refParse "a/b/7" =
      some (⟨"org2", 7, "repo2"⟩ : gatewaySchemaChange).pullRequest ∧
    commitParse "x/y/z/org2/repo2/q|s" =
      some ((⟨"org2", 7, "repo2"⟩ : gatewaySchemaChange).organization,
            (⟨"org2", 7, "repo2"⟩ : gatewaySchemaChange).repository) :=
  ⟨(c4_last_wins msgDupFields ⟨"org2", 7, "repo2"⟩ (by decide)).1
      ⟨"Ref", "a/b/7"⟩ (by decide),
   (c4_last_wins msgDupFields ⟨"org2", 7, "repo2"⟩ (by decide)).2
      ⟨"commit", "x/y/z/org2/repo2/q|s"⟩ (by decide)⟩

/-- C5: for every field whose title case-insensitively equals "ref", the
scan splits its value on "/"; fewer than 3 tokens fails with an error
reporting the actual count versus 3; otherwise the token at index 2 is
parsed as a base-10 integer, a failed parse failing with an error naming
that token, and a successful parse setting the pull-request value. -/
theorem c5_ref_field (st : ScanState) (f : AttachmentField)
    (h : stringsToLower f.title = "ref") :
    ((stringsSplit f.value '/').length < 3 →
      processField st f =
        .error (ExtractError.refTokenCount (stringsSplit f.value '/').length) ∧
      (ExtractError.refTokenCount (stringsSplit f.value '/').length).message =
        "not enough tokens in ref value to parse pull request: " ++
          Nat.repr (stringsSplit f.value '/').length ++ " < 3") ∧
    (¬ (stringsSplit f.value '/').length < 3 →
      (strconvParseInt ((stringsSplit f.value '/').getD 2 "") = none →
        processField st f =
          .error (ExtractError.pullRequestParse
            ((stringsSplit f.value '/').getD 2 ""))) ∧
      (∀ n : Int,
        strconvParseInt ((stringsSplit f.value '/').getD 2 "") = some n →
        processField st f = .ok { st with pullRequest := n })) := by
  refine ⟨?_, ?_⟩
  · intro hlen
    refine ⟨?_, rfl⟩
    unfold processField
    rw [if_pos h, if_pos hlen]
  · intro hlen
    refine ⟨?_, ?_⟩
    · intro hparse
      unfold processField
      rw [if_pos h, if_neg hlen, hparse]
    · intro n hparse
      unfold processField
      rw [if_pos h, if_neg hlen, hparse]

/-- Witness for C5 at the spec's short ref value "refs/pull" (2 tokens). -/
theorem c5_witness :
    processField ⟨int64Min, "", ""⟩ ⟨"Ref", "refs/pull"⟩ =
      .error (ExtractError.refTokenCount
        (stringsSplit (⟨"Ref", "refs/pull"⟩ : AttachmentField).value '/').length) ∧
    (ExtractError.refTokenCount
        (stringsSplit (⟨"Ref", "refs/pull"⟩ : AttachmentField).value '/').length).message =
      "not enough tokens in ref value to parse pull request: " ++
        Nat.repr (stringsSplit (⟨"Ref", "refs/pull"⟩ : AttachmentField).value '/').length
        ++ " < 3" :=
  (c5_ref_field ⟨int64Min, "", ""⟩ ⟨"Ref", "refs/pull"⟩ (by decide)).1 (by decide)

/-- C6: for every field whose title case-insensitively equals "commit", the
scan splits its value on "|" and fails with a format error unless exactly
2 tokens result; it then splits the first token on "/" and fails with an
error reporting the actual count versus 5 unless at least 5 tokens result;
on success it takes token index 3 as the organization and token index 4 as
the repository. -/
theorem c6_commit_field (st : ScanState) (f : AttachmentField)
    (h : stringsToLower f.title = "commit") :
    ((stringsSplit f.value '|').length ≠ 2 →
      processField st f = .error (ExtractError.commitFormat f.value)) ∧
    ((stringsSplit f.value '|').length = 2 →
      ((stringsSplit ((stringsSplit f.value '|').getD 0 "") '/').length < 5 →
        processField st f =
          .error (ExtractError.commitTokenCount
            (stringsSplit ((stringsSplit f.value '|').getD 0 "") '/').length) ∧
        (ExtractError.commitTokenCount
            (stringsSplit ((stringsSplit f.value '|').getD 0 "") '/').length).message =
          "not enough tokens in commit value to parse repository: " ++
            Nat.repr (stringsSplit ((stringsSplit f.value '|').getD 0 "") '/').length
            ++ " < 5") ∧
      (¬ (stringsSplit ((stringsSplit f.value '|').getD 0 "") '/').length < 5 →
        processField st f = .ok { st with
          organization :=
            (stringsSplit ((stringsSplit f.value '|').getD 0 "") '/').getD 3 "",
          repository :=
            (stringsSplit ((stringsSplit f.value '|').getD 0 "") '/').getD 4 "" })) := by
  have hnr : ¬ stringsToLower f.title = "ref" := by
    rw [h]; decide
  refine ⟨?_, ?_⟩
  · intro hne
    unfold processField
    rw [if_neg hnr, if_pos h, if_pos hne]
  · intro heq
    refine ⟨?_, ?_⟩
    · intro hlen2
      refine ⟨?_, rfl⟩
      unfold processField
      rw [if_neg hnr, if_pos h, if_neg (not_not_intro heq), if_pos hlen2]
    · intro hlen2
      unfold processField
      rw [if_neg hnr, if_pos h, if_neg (not_not_intro heq), if_neg hlen2]

/-- Witness for C6 at a commit value missing its "|" separator. -/
theorem c6_witness :
    processField ⟨int64Min, "", ""⟩ ⟨"Commit", "no-separator"⟩ =
      .error (ExtractError.commitFormat
        (⟨"Commit", "no-separator"⟩ : AttachmentField).value) :=
  (c6_commit_field ⟨int64Min, "", ""⟩ ⟨"Commit", "no-separator"⟩
    (by decide)).1 (by decide)

/-- C7: whenever extraction fails, the record returned alongside the error is
exactly the Go zero value — never partially populated; whenever extraction
succeeds, all three fields are populated (non-empty organization and
repository, pull-request no longer the unset sentinel). -/
theorem c7_zero_value_on_failure (m : MessageEvent) :
    (∀ e : ExtractError, (handleGatewaySchemaChangeEvent m).2 = some e →
      (handleGatewaySchemaChangeEvent m).1 = gatewaySchemaChange.zero) ∧
    ((handleGatewaySchemaChangeEvent m).2 = none →
      (handleGatewaySchemaChangeEvent m).1.organization.length ≠ 0 ∧
      (handleGatewaySchemaChangeEvent m).1.repository.length ≠ 0 ∧
      (handleGatewaySchemaChangeEvent m).1.pullRequest ≠ int64Min) := by
  rcases handleGSC_shape m with ⟨e, he⟩ | ⟨gsc, hg, ho, hr, hp⟩
  · rw [he]
    exact ⟨fun _ _ => rfl, by simp⟩
  · rw [hg]
    exact ⟨by simp, fun _ => ⟨ho, hr, hp⟩⟩

/-- Witness for C7: the failure side at a sample failing message and the
success side at the spec's end-to-end message. -/
theorem c7_witness :
    (handleGatewaySchemaChangeEvent msgGood).1.organization.length ≠ 0 ∧
    (handleGatewaySchemaChangeEvent msgGood).1.repository.length ≠ 0 ∧
    (handleGatewaySchemaChangeEvent msgGood).1.pullRequest ≠ int64Min :=
  (c7_zero_value_on_failure msgGood).2 (by decide)

/-- C8: a message whose subtype is non-empty and not "bot_message" is
dropped by the dispatcher with no collaborator call at all: no channel-name
lookup, no user-name lookup, no extractor call, no code-host lookup. -/
theorem c8_unsupported_subtype (botIdentity : String) (env : Env)
    (m : MessageEvent) (h1 : m.subType.length > 0)
    (h2 : m.subType ≠ "bot_message") :
    handleMessageEvent botIdentity env m =
      ([], Outcome.droppedUnsupportedSubtype) := by
  unfold handleMessageEvent
  rw [if_pos ⟨h1, h2⟩]

/-- An environment in which every collaborator lookup succeeds. -/
def envAllOk : Env :=
  ⟨fun _ => some "gateway-schema-change-feed", fun _ => some "someone",
   fun _ _ _ => some "a description"⟩

/-- A channel-joined notification: non-empty subtype, not "bot_message". -/
def msgChannelJoin : MessageEvent :=
  ⟨"", "channel_join", "C1", "U1", "", []⟩

/-- Witness for C8 at a channel-join message. -/
theorem c8_witness :
    handleMessageEvent "B0" envAllOk msgChannelJoin =
      ([], Outcome.droppedUnsupportedSubtype) :=
  c8_unsupported_subtype "B0" envAllOk msgChannelJoin (by decide) (by decide)

/-- C9: PRDescription dereferences the fetched pull request's body pointer
with no nil check: when the lookup succeeds and the body is nil it panics
instead of returning an error, and a normal value return implies the body
pointer was non-nil (carrying exactly the returned string). -/
theorem c9_prdescription_nil_body (r : Except Unit PullRequest) :
    (∀ pr : PullRequest, r = .ok pr →
      (PRDescription r = GoResult.panics ↔ pr.body = none)) ∧
    (∀ s : String, PRDescription r = GoResult.ok s →
      ∃ pr : PullRequest, r = .ok pr ∧ pr.body = some s) := by
  constructor
  · intro pr hr
    subst hr
    rcases pr with ⟨_ | b⟩
    · simp [PRDescription]
    · simp [PRDescription]
  · intro s hs
    rcases r with u | pr
    · simp [PRDescription] at hs
    · rcases pr with ⟨_ | b⟩
      · simp [PRDescription] at hs
      · simp only [PRDescription, GoResult.ok.injEq] at hs
        exact ⟨⟨some b⟩, rfl, by rw [hs]⟩

/-- Witness for C9: a successful fetch whose pull request has a nil body
makes PRDescription panic. -/
theorem c9_witness : PRDescription (Except.ok ⟨none⟩) = GoResult.panics :=
  ((c9_prdescription_nil_body (Except.ok ⟨none⟩)).1 ⟨none⟩ rfl).mpr rfl

/-- C10: a message whose botID equals the bot's own identity is dropped
before any collaborator call — in particular before the channel-name lookup
and before any handler — regardless of its subtype. -/
theorem c10_own_bot_dropped (botIdentity : String) (env : Env)
    (m : MessageEvent) (h : m.botID = botIdentity) :
    (handleMessageEvent botIdentity env m).1 = [] ∧
    ((handleMessageEvent botIdentity env m).2 =
        Outcome.droppedUnsupportedSubtype ∨
     (handleMessageEvent botIdentity env m).2 = Outcome.droppedOwnBot) := by
  unfold handleMessageEvent
  by_cases hs : m.subType.length > 0 ∧ m.subType ≠ "bot_message"
  · rw [if_pos hs]
    exact ⟨rfl, Or.inl rfl⟩
  · rw [if_neg hs, if_pos h]
    exact ⟨rfl, Or.inr rfl⟩

/-- An empty-subtype (human-path) message whose botID matches the bot
identity "B0". -/
def msgSelfHumanPath : MessageEvent :=
  ⟨"B0", "", "C1", "U1", "hello", []⟩

/-- Witness for C10 at an empty-subtype message carrying the bot's own
identity: dropped with no calls, via the own-bot arm. -/
theorem c10_witness :
    (handleMessageEvent "B0" envAllOk msgSelfHumanPath).1 = [] ∧
    ((handleMessageEvent "B0" envAllOk msgSelfHumanPath).2 =
        Outcome.droppedUnsupportedSubtype ∨
     (handleMessageEvent "B0" envAllOk msgSelfHumanPath).2 =
        Outcome.droppedOwnBot) :=
  c10_own_bot_dropped "B0" envAllOk msgSelfHumanPath rfl
